import Mathlib

/-!
Verification of the virtual hardware device classifier of
`terraform-provider-vsphere` (data source `vsphere_virtual_machine`).

The orchestrator `dataSourceVSphereVirtualMachineRead` lives in
`vsphere/data_source_vsphere_virtual_machine.go` and is embedded below
statement by statement.  The classifier functions it calls
(`ReadSCSIBusType`, `ReadSCSIBusSharing`, `ReadDiskAttrsForDataSource`,
`ReadNetworkInterfaceTypes`, `ReadNetworkInterfaces`) live in the
`internal/virtualdevice` package, whose source is not part of this
snapshot; those are modelled from the specification (sections 3, 4, 6
and 7 of the spec), as marked on each definition.
-/

namespace VSphere

/-- Kind discriminator of a hardware device record (spec section 3:
"kind discriminator (controller-kind | disk | network-adapter)").
`controller` is a storage controller of the relevant (SCSI) kind;
`other` covers devices of no interest to the classifier. -/
inductive DeviceClass where
  | controller
  | disk
  | networkAdapter
  | other
deriving DecidableEq, Repr

/-- Modelled from the spec: a flat device record (spec section 3,
"Device").  Unique key, controller back-reference, unit number, the
kind discriminator and the kind-specific payload fields (bus sub-type
and sharing mode for controllers; capacity and provisioning flags for
disks; network reference, implementation class and MAC for adapters).
Fields irrelevant to a device's kind are simply unused. -/
structure Device where
  key : Nat
  controllerKey : Nat
  unitNumber : Nat
  kind : DeviceClass
  busSubType : String
  sharingMode : String
  capacityInUnits : Nat
  eagerlyScrub : Bool
  thinProvisioned : Bool
  networkID : String
  adapterClass : String
  macAddress : String
deriving DecidableEq, Repr

/-- Machine-level classification result (spec section 3,
"BusClassification"). -/
structure BusClassification where
  busType : String
  busSharing : String
deriving DecidableEq, Repr

/-- Error raised by `classify` (spec sections 6 and 7:
`MalformedInventory` / `InvalidScanDepth`, a negative scan depth). -/
inductive ClassifyError where
  | malformedInventory
deriving DecidableEq, Repr

/-- Error raised by disk enumeration (spec section 7:
`MalformedDevice`, carrying the offending device key). -/
inductive DiskError where
  | malformedDevice (key : Nat)
deriving DecidableEq, Repr

/-- Per-disk output record (spec section 3, "DiskRecord"). -/
structure DiskRecord where
  size : Nat
  eagerlyScrub : Bool
  thinProvisioned : Bool
deriving DecidableEq, Repr

/-- Per-adapter output record (spec section 3,
"NetworkAdapterRecord"). -/
structure NetworkAdapterRecord where
  networkID : String
  adapterType : String
  macAddress : String
deriving DecidableEq, Repr

/-- Comparison of devices by unit number, the sort key used for disks
within one controller and for network adapters across the machine. -/
def unitLE (a b : Device) : Prop := a.unitNumber ≤ b.unitNumber

/-- Strict version of `unitLE`. -/
def unitLT (a b : Device) : Prop := a.unitNumber < b.unitNumber

instance : DecidableRel unitLE := fun a b =>
  inferInstanceAs (Decidable (a.unitNumber ≤ b.unitNumber))

instance : DecidableRel unitLT := fun a b =>
  inferInstanceAs (Decidable (a.unitNumber < b.unitNumber))

instance : IsTotal Device unitLE := ⟨fun a b => Nat.le_total a.unitNumber b.unitNumber⟩

instance : IsTrans Device unitLE := ⟨fun _ _ _ h1 h2 => Nat.le_trans h1 h2⟩

instance : IsAntisymm Device unitLT := ⟨fun _ _ h1 h2 => absurd h1 (Nat.lt_asymm h2)⟩

/-- The storage controllers of the relevant kind, in declaration order
(spec section 4.1: the stable-ordered list of controller devices of one
kind). -/
def scsiControllers (devices : List Device) : List Device :=
  devices.filter (fun d => d.kind == DeviceClass.controller)

/-- The controllers actually examined: the first `scanDepth`
controllers of the relevant kind in stable order (spec section 4.2). -/
def examinedControllers (devices : List Device) (scanDepth : Nat) : List Device :=
  (scsiControllers devices).take scanDepth

/-- Modelled from the spec: the reduction of per-controller findings to
one machine-level value (spec section 4.2): zero observations give the
"unknown" sentinel, one distinct observation gives that value, two or
more distinct observations give the "mixed" sentinel. -/
def reduceObserved : List String → String
  | [] => "unknown"
  | x :: rest => if rest.all (fun y => y == x) then x else "mixed"

/-- Bus sub-types observed across the examined controllers. -/
def obsTypes (devices : List Device) (scanDepth : Nat) : List String :=
  (examinedControllers devices scanDepth).map (fun d => d.busSubType)

/-- Sharing modes observed across the examined controllers. -/
def obsSharing (devices : List Device) (scanDepth : Nat) : List String :=
  (examinedControllers devices scanDepth).map (fun d => d.sharingMode)

/-- The classification of the examined controllers: the two observed
lists reduced independently (spec section 4.2). -/
def classifyAux (devices : List Device) (scanDepth : Nat) : BusClassification :=
  { busType := reduceObserved (obsTypes devices scanDepth)
    busSharing := reduceObserved (obsSharing devices scanDepth) }

/-- Modelled from the spec: `classify(devices, scanDepth)` (spec
section 6), the contract behind `ReadSCSIBusType` / `ReadSCSIBusSharing`
whose source is not in this snapshot.  A negative scan depth is rejected
with `MalformedInventory` before any scan (spec section 7); otherwise
the scan succeeds and reduces the observations. -/
def classify (devices : List Device) (scanDepth : Int) : Except ClassifyError BusClassification :=
  if scanDepth < 0 then Except.error ClassifyError.malformedInventory
  else Except.ok (classifyAux devices scanDepth.toNat)

/-- Modelled from the spec: the adapter implementation classes the
reader recognizes; any other class degrades to the "unknown" label
(spec sections 4.4 and 8, which name `e1000` and `vmxnet3` among the
normalized labels). -/
def knownAdapterClasses : List String :=
  ["e1000", "e1000e", "pcnet32", "sriov", "vmxnet2", "vmxnet3"]

/-- Modelled from the spec: the normalized adapter-type label derived
from an adapter's implementation class; an unrecognized class yields
"unknown" rather than an error (spec section 4.4). -/
def normalizeAdapterType (c : String) : String :=
  if knownAdapterClasses.contains c then c else "unknown"

/-- All network adapter devices of the snapshot, sorted ascending by
unit number across the entire machine (spec section 4.4; no scan-depth
bound). -/
def adapterDevices (devices : List Device) : List Device :=
  List.insertionSort unitLE
    (devices.filter (fun d => d.kind == DeviceClass.networkAdapter))

/-- The output record derived from one adapter device. -/
def adapterRecord (d : Device) : NetworkAdapterRecord :=
  { networkID := d.networkID
    adapterType := normalizeAdapterType d.adapterClass
    macAddress := d.macAddress }

/-- Modelled from the spec: `readNetworkAdapters(devices)` behind
`ReadNetworkInterfaces`, whose source is not in this snapshot: every
adapter device, sorted by unit number, projected to its record (spec
sections 4.4 and 6). -/
def readNetworkAdapters (devices : List Device) : List NetworkAdapterRecord :=
  (adapterDevices devices).map adapterRecord

/-- Modelled from the spec: `readNetworkAdapterTypes(devices)` behind
`ReadNetworkInterfaceTypes`, whose source is not in this snapshot: the
types-only view produced from the same sorted sequence (spec sections
4.4 and 6). -/
def readNetworkAdapterTypes (devices : List Device) : List String :=
  (adapterDevices devices).map (fun d => normalizeAdapterType d.adapterClass)

/-- The disk devices attached to controller `c`, in ascending
unit-number order (spec section 4.3). -/
def disksOnController (devices : List Device) (c : Device) : List Device :=
  List.insertionSort unitLE
    (devices.filter (fun d => d.kind == DeviceClass.disk && d.controllerKey == c.key))

/-- The bounded controller walk of the disk reader: controller `i` of
the walked list is assigned bus number `b + i`, and contributes its
attached disks in ascending unit order, each tagged with its
(bus number, unit number) sort key (spec sections 4.2 and 4.3). -/
def diskScan (devices : List Device) : List Device → Nat → List (Nat × Nat × Device)
  | [], _ => []
  | c :: cs, b =>
      (disksOnController devices c).map (fun d => (b, d.unitNumber, d)) ++
        diskScan devices cs (b + 1)

/-- The disk devices enumerated at a given scan depth, in output
order. -/
def diskDeviceSeq (devices : List Device) (scanDepth : Nat) : List Device :=
  (diskScan devices (examinedControllers devices scanDepth) 0).map (fun t => t.2.2)

/-- The (controller bus number, unit number) sort keys of the disk
output sequence, in output order. -/
def diskKeySeq (devices : List Device) (scanDepth : Nat) : List (Nat × Nat) :=
  (diskScan devices (examinedControllers devices scanDepth) 0).map (fun t => (t.1, t.2.1))

/-- Strict lexicographic order on (bus number, unit number) keys. -/
def lexLT (p q : Nat × Nat) : Prop :=
  p.1 < q.1 ∨ (p.1 = q.1 ∧ p.2 < q.2)

/-- Modelled from the spec: `readDisks(devices, scanDepth)` behind
`ReadDiskAttrsForDataSource`, whose source is not in this snapshot.
A disk device within scan depth whose payload lacks capacity data
(recorded capacity zero) is a hard `MalformedDevice` error naming the
offending device key, and no disk sequence is returned; otherwise the
ordered records are produced (spec sections 4.3, 6, 7 and 8). -/
def readDisks (devices : List Device) (scanDepth : Nat) : Except DiskError (List DiskRecord) :=
  match (diskDeviceSeq devices scanDepth).find? (fun d => d.capacityInUnits == 0) with
  | some d => Except.error (DiskError.malformedDevice d.key)
  | none =>
      Except.ok ((diskDeviceSeq devices scanDepth).map
        (fun d => { size := d.capacityInUnits
                    eagerlyScrub := d.eagerlyScrub
                    thinProvisioned := d.thinProvisioned }))

/-- Modelled from the spec: the adapter-types read as seen by the
orchestrator, which checks it for an error; the spec defines no failure
condition for it ("never fails on unknown adapter types", section 4.4),
so it always succeeds. -/
def nicTypesRead (devices : List Device) : Except String (List String) :=
  Except.ok (readNetworkAdapterTypes devices)

/-- Modelled from the spec: the full adapter-records read as seen by
the orchestrator; the spec defines no failure condition for it, so it
always succeeds. -/
def nicRead (devices : List Device) : Except String (List NetworkAdapterRecord) :=
  Except.ok (readNetworkAdapters devices)

/-- The values the orchestrator writes into the result structure. -/
structure ReadResult where
  scsiType : String
  scsiBusSharing : String
  disks : List DiskRecord
  networkInterfaceTypes : List String
  networkInterfaces : List NetworkAdapterRecord
deriving DecidableEq, Repr

/-- The device-handling tail of `dataSourceVSphereVirtualMachineRead`
(`vsphere/data_source_vsphere_virtual_machine.go`, lines 163-193),
embedded statement by statement from the point where the device
snapshot is available.  `set` models `d.Set`, which may fail for any
field; as in the Go source, the value of `set` is discarded on every
call, and `err` models the Go `err` variable: it is reassigned by each
`x, err := read(...)` statement and tested by each
`if d.Set(...); err != nil` statement, whose init statement does NOT
assign to it. -/
def dataSourceVSphereVirtualMachineRead (devices : List Device) (scanCount : Nat)
    (set : String → Option String) : Except String ReadResult :=
  let c := classifyAux devices scanCount
  let _ := set "scsi_type"
  let _ := set "scsi_bus_sharing"
  match readDisks devices scanCount with
  | Except.error _ => Except.error "error reading disk sizes"
  | Except.ok disks =>
    match nicTypesRead devices with
    | Except.error _ => Except.error "error reading network interface types"
    | Except.ok nics =>
      match nicRead devices with
      | Except.error _ => Except.error "error reading network interfaces"
      | Except.ok networkInterfaces =>
        let err : Option String := none
        let _ := set "disks"
        match err with
        | some _ => Except.error "error setting disk sizes"
        | none =>
          let _ := set "network_interface_types"
          match err with
          | some _ => Except.error "error setting network interface types"
          | none =>
            let _ := set "network_interfaces"
            match err with
            | some _ => Except.error "error setting network interfaces"
            | none =>
                Except.ok { scsiType := c.busType
                            scsiBusSharing := c.busSharing
                            disks := disks
                            networkInterfaceTypes := nics
                            networkInterfaces := networkInterfaces }

/-- Well-formedness of a device snapshot (spec section 3, Invariants):
device keys are unique within the machine; disk unit numbers are unique
within each controller present; adapter unit numbers are unique across
the machine (their ordering scope). -/
def ValidSnapshot (devices : List Device) : Prop :=
  (devices.map (fun d => d.key)).Nodup ∧
  (∀ c ∈ devices,
    ((devices.filter (fun d => d.kind == DeviceClass.disk && d.controllerKey == c.key)).map
      (fun d => d.unitNumber)).Nodup) ∧
  ((devices.filter (fun d => d.kind == DeviceClass.networkAdapter)).map
    (fun d => d.unitNumber)).Nodup

instance (devices : List Device) : Decidable (ValidSnapshot devices) := by
  unfold ValidSnapshot
  infer_instance

/-- A sample SCSI controller on bus slot 0 (lsilogic, no sharing). -/
def ctrlA : Device :=
  { key := 1, controllerKey := 0, unitNumber := 0, kind := DeviceClass.controller
    busSubType := "lsilogic", sharingMode := "noSharing"
    capacityInUnits := 0, eagerlyScrub := false, thinProvisioned := false
    networkID := "", adapterClass := "", macAddress := "" }

/-- A sample SCSI controller with a different bus sub-type. -/
def ctrlB : Device :=
  { key := 2, controllerKey := 0, unitNumber := 0, kind := DeviceClass.controller
    busSubType := "buslogic", sharingMode := "noSharing"
    capacityInUnits := 0, eagerlyScrub := false, thinProvisioned := false
    networkID := "", adapterClass := "", macAddress := "" }

/-- A sample disk on controller `ctrlA`, unit 0, capacity 40. -/
def diskA : Device :=
  { key := 3, controllerKey := 1, unitNumber := 0, kind := DeviceClass.disk
    busSubType := "", sharingMode := ""
    capacityInUnits := 40, eagerlyScrub := false, thinProvisioned := true
    networkID := "", adapterClass := "", macAddress := "" }

/-- A sample disk on controller `ctrlB`, unit 0, capacity 20. -/
def diskB : Device :=
  { key := 4, controllerKey := 2, unitNumber := 0, kind := DeviceClass.disk
    busSubType := "", sharingMode := ""
    capacityInUnits := 20, eagerlyScrub := true, thinProvisioned := false
    networkID := "", adapterClass := "", macAddress := "" }

/-- A sample disk on controller `ctrlA`, unit 1, with zero recorded
capacity: a malformed device. -/
def diskBad : Device :=
  { key := 5, controllerKey := 1, unitNumber := 1, kind := DeviceClass.disk
    busSubType := "", sharingMode := ""
    capacityInUnits := 0, eagerlyScrub := false, thinProvisioned := false
    networkID := "", adapterClass := "", macAddress := "" }

/-- A sample network adapter of a recognized class, unit 1. -/
def nicX : Device :=
  { key := 6, controllerKey := 0, unitNumber := 1, kind := DeviceClass.networkAdapter
    busSubType := "", sharingMode := ""
    capacityInUnits := 0, eagerlyScrub := false, thinProvisioned := false
    networkID := "net-1", adapterClass := "e1000", macAddress := "00:50:56:aa:bb:01" }

/-- A sample network adapter of a recognized class, unit 0. -/
def nicY : Device :=
  { key := 7, controllerKey := 0, unitNumber := 0, kind := DeviceClass.networkAdapter
    busSubType := "", sharingMode := ""
    capacityInUnits := 0, eagerlyScrub := false, thinProvisioned := false
    networkID := "net-2", adapterClass := "vmxnet3", macAddress := "00:50:56:aa:bb:02" }

/-- A sample network adapter of an unrecognized implementation class,
unit 2. -/
def nicZ : Device :=
  { key := 8, controllerKey := 0, unitNumber := 2, kind := DeviceClass.networkAdapter
    busSubType := "", sharingMode := ""
    capacityInUnits := 0, eagerlyScrub := false, thinProvisioned := false
    networkID := "net-3", adapterClass := "futureAdapter", macAddress := "00:50:56:aa:bb:03" }

/-- The result the orchestrator produces for the snapshot
`[nicX, nicY]` (no controllers, no disks, two adapters). -/
def sampleReadResult : ReadResult :=
  { scsiType := "unknown", scsiBusSharing := "unknown", disks := []
    networkInterfaceTypes := ["vmxnet3", "e1000"]
    networkInterfaces :=
      [{ networkID := "net-2", adapterType := "vmxnet3", macAddress := "00:50:56:aa:bb:02" },
       { networkID := "net-1", adapterType := "e1000", macAddress := "00:50:56:aa:bb:01" }] }

/-- If every member of the observed list equals `X` (and there is at
least one), the reduction returns `X`. -/
theorem reduceObserved_all_eq {xs : List String} {X : String}
    (hmem : X ∈ xs) (hall : ∀ y ∈ xs, y = X) : reduceObserved xs = X := by
  cases xs with
  | nil => cases hmem
  | cons x rest =>
    have hx : x = X := hall x (List.mem_cons_self x rest)
    have hrest : rest.all (fun y => y == x) = true := by
      rw [List.all_eq_true]
      intro y hy
      have : y = X := hall y (List.mem_cons_of_mem x hy)
      simp [this, hx]
    simp only [reduceObserved]
    rw [if_pos hrest]
    exact hx

/-- If the observed list holds two distinct members, the reduction
returns the "mixed" sentinel. -/
theorem reduceObserved_mixed {xs : List String} {X Y : String}
    (hX : X ∈ xs) (hY : Y ∈ xs) (hne : X ≠ Y) : reduceObserved xs = "mixed" := by
  cases xs with
  | nil => cases hX
  | cons x rest =>
    have hrest : rest.all (fun y => y == x) = false := by
      cases hb : rest.all (fun y => y == x) with
      | false => rfl
      | true =>
        exfalso
        have hall : ∀ y ∈ rest, y = x := fun y hy =>
          eq_of_beq (List.all_eq_true.mp hb y hy)
        have hXx : X = x := by
          rcases List.mem_cons.mp hX with h1 | h1
          · exact h1
          · exact hall X h1
        have hYx : Y = x := by
          rcases List.mem_cons.mp hY with h1 | h1
          · exact h1
          · exact hall Y h1
        exact hne (hXx.trans hYx.symm)
    simp only [reduceObserved]
    rw [hrest]
    simp

/-- If the observed list is empty, the reduction returns the "unknown"
sentinel. -/
theorem reduceObserved_nil : reduceObserved [] = "unknown" := rfl

/-- Every network adapter device of the snapshot contributes its record
to the adapter output. -/
theorem adapterRecord_mem {devices : List Device} {a : Device}
    (ha : a ∈ devices) (hk : a.kind = DeviceClass.networkAdapter) :
    adapterRecord a ∈ readNetworkAdapters devices := by
  have h1 : a ∈ devices.filter (fun d => d.kind == DeviceClass.networkAdapter) :=
    List.mem_filter.mpr ⟨ha, by simp [hk]⟩
  have h2 : a ∈ adapterDevices devices := by
    unfold adapterDevices
    exact (List.mem_insertionSort unitLE).mpr h1
  exact List.mem_map_of_mem adapterRecord h2

/-- Sorting a device list whose unit numbers are free of duplicates
yields a strictly ascending sequence of unit numbers. -/
theorem pairwise_unitLT_insertionSort (l : List Device)
    (hnd : (l.map (fun d => d.unitNumber)).Nodup) :
    List.Pairwise unitLT (List.insertionSort unitLE l) := by
  have hs : List.Sorted unitLE (List.insertionSort unitLE l) :=
    List.sorted_insertionSort unitLE l
  have hperm : List.Perm (List.insertionSort unitLE l) l := List.perm_insertionSort unitLE l
  have hnd' : ((List.insertionSort unitLE l).map (fun d => d.unitNumber)).Nodup :=
    (hperm.map (fun d => d.unitNumber)).nodup_iff.mpr hnd
  have hne : List.Pairwise (fun a b : Device => a.unitNumber ≠ b.unitNumber)
      (List.insertionSort unitLE l) :=
    List.pairwise_map.mp hnd'
  exact (hs.and hne).imp (fun h => Nat.lt_of_le_of_ne h.1 h.2)

/-- Every key tag produced by the disk scan is at least the starting
bus number. -/
theorem diskScan_fst_ge (devices : List Device) :
    ∀ (cs : List Device) (b : Nat) (t : Nat × Nat × Device),
      t ∈ diskScan devices cs b → b ≤ t.1 := by
  intro cs
  induction cs with
  | nil => intro b t ht; cases ht
  | cons c cs ih =>
    intro b t ht
    rcases List.mem_append.mp ht with h | h
    · rcases List.mem_map.mp h with ⟨d, _, rfl⟩
      exact Nat.le_refl b
    · exact Nat.le_of_succ_le (ih (b + 1) t h)

/-- The disk scan distributes over list append, shifting the bus
number by the length of the first part. -/
theorem diskScan_append (devices : List Device) :
    ∀ (cs1 cs2 : List Device) (b : Nat),
      diskScan devices (cs1 ++ cs2) b =
        diskScan devices cs1 b ++ diskScan devices cs2 (b + cs1.length) := by
  intro cs1
  induction cs1 with
  | nil => intro cs2 b; simp [diskScan]
  | cons c cs ih =>
    intro cs2 b
    have h1 : (c :: cs) ++ cs2 = c :: (cs ++ cs2) := rfl
    rw [h1]
    show (disksOnController devices c).map (fun d => (b, d.unitNumber, d)) ++
        diskScan devices (cs ++ cs2) (b + 1) = _
    rw [ih cs2 (b + 1)]
    simp only [diskScan, List.length_cons, List.append_assoc]
    have h2 : b + 1 + cs.length = b + (cs.length + 1) := by omega
    rw [h2]

/-- If every walked controller carries disks with duplicate-free unit
numbers, the disk scan's key tags are strictly ascending in the
lexicographic (bus number, unit number) order. -/
theorem diskScan_pairwise (devices : List Device) :
    ∀ (cs : List Device) (b : Nat),
      (∀ c ∈ cs, ((devices.filter
        (fun d => d.kind == DeviceClass.disk && d.controllerKey == c.key)).map
          (fun d => d.unitNumber)).Nodup) →
      List.Pairwise (fun t u : Nat × Nat × Device => lexLT (t.1, t.2.1) (u.1, u.2.1))
        (diskScan devices cs b) := by
  intro cs
  induction cs with
  | nil => intro b _; exact List.Pairwise.nil
  | cons c cs ih =>
    intro b h
    simp only [diskScan]
    rw [List.pairwise_append]
    refine ⟨?_, ?_, ?_⟩
    · rw [List.pairwise_map]
      have hstrict : List.Pairwise unitLT (disksOnController devices c) :=
        pairwise_unitLT_insertionSort _ (h c (List.mem_cons_self c cs))
      exact hstrict.imp (fun hlt => Or.inr ⟨rfl, hlt⟩)
    · exact ih (b + 1) (fun c' hc' => h c' (List.mem_cons_of_mem c hc'))
    · intro t ht u hu
      rcases List.mem_map.mp ht with ⟨d, _, rfl⟩
      have : b + 1 ≤ u.1 := diskScan_fst_ge devices cs (b + 1) u hu
      exact Or.inl (Nat.lt_of_succ_le this)

/-- The disk device sequence at scan depth `k` is a prefix of the one
at scan depth `k + 1`. -/
theorem diskDeviceSeq_prefix (devices : List Device) (k : Nat) :
    diskDeviceSeq devices k <+: diskDeviceSeq devices (k + 1) := by
  unfold diskDeviceSeq examinedControllers
  rw [List.take_succ, diskScan_append, List.map_append]
  exact ⟨_, rfl⟩

/-- When the disk read succeeds, the orchestrator returns the filled
result structure, for every behavior of `d.Set`. -/
theorem dataSourceRead_ok (devices : List Device) (n : Nat)
    (ds : List DiskRecord) (h : readDisks devices n = Except.ok ds)
    (set : String → Option String) :
    dataSourceVSphereVirtualMachineRead devices n set =
      Except.ok { scsiType := (classifyAux devices n).busType
                  scsiBusSharing := (classifyAux devices n).busSharing
                  disks := ds
                  networkInterfaceTypes := readNetworkAdapterTypes devices
                  networkInterfaces := readNetworkAdapters devices } := by
  unfold dataSourceVSphereVirtualMachineRead
  rw [h]
  rfl

/-- When the disk read fails, the orchestrator propagates the disk
error, for every behavior of `d.Set`. -/
theorem dataSourceRead_error (devices : List Device) (n : Nat)
    (e : DiskError) (h : readDisks devices n = Except.error e)
    (set : String → Option String) :
    dataSourceVSphereVirtualMachineRead devices n set =
      Except.error "error reading disk sizes" := by
  unfold dataSourceVSphereVirtualMachineRead
  rw [h]

/-- C1: with zero storage controllers of the relevant kind, or with
scan depth 0, so that no controller is examined, classification
returns the "unknown" sentinel for both the bus type and the sharing
mode, and does not return an error. -/
theorem c1_no_controllers_unknown (devices : List Device) (n : Int) (hn : 0 ≤ n)
    (h : scsiControllers devices = [] ∨ n = 0) :
    classify devices n = Except.ok { busType := "unknown", busSharing := "unknown" } := by
  have hex : examinedControllers devices n.toNat = [] := by
    rcases h with h | h
    · unfold examinedControllers
      rw [h]
      exact List.take_nil
    · subst h
      rfl
  unfold classify
  rw [if_neg (by omega)]
  unfold classifyAux obsTypes obsSharing
  rw [hex]
  rfl

/-- Witness for C1 on a snapshot with no controller devices. -/
theorem c1_no_controllers_unknown_witness :
    classify [nicX, diskA] 0 =
      Except.ok { busType := "unknown", busSharing := "unknown" } :=
  c1_no_controllers_unknown [nicX, diskA] 0 (by decide) (Or.inr rfl)

/-- C2: at a non-negative scan depth, classification succeeds; when
the observed bus sub-types have exactly one member `X`, the bus type is
`X`, and when two distinct members are observed, it is the "mixed"
sentinel; the same reduction holds independently for the sharing
mode. -/
theorem c2_reduction_rule (devices : List Device) (n : Int) (hn : 0 ≤ n) :
    classify devices n = Except.ok (classifyAux devices n.toNat) ∧
    (∀ X ∈ obsTypes devices n.toNat,
      (∀ y ∈ obsTypes devices n.toNat, y = X) →
        (classifyAux devices n.toNat).busType = X) ∧
    (∀ X Y, X ∈ obsTypes devices n.toNat → Y ∈ obsTypes devices n.toNat → X ≠ Y →
      (classifyAux devices n.toNat).busType = "mixed") ∧
    (∀ X ∈ obsSharing devices n.toNat,
      (∀ y ∈ obsSharing devices n.toNat, y = X) →
        (classifyAux devices n.toNat).busSharing = X) ∧
    (∀ X Y, X ∈ obsSharing devices n.toNat → Y ∈ obsSharing devices n.toNat → X ≠ Y →
      (classifyAux devices n.toNat).busSharing = "mixed") := by
  refine ⟨?_, ?_, ?_, ?_, ?_⟩
  · unfold classify
    rw [if_neg (by omega)]
  · intro X hX hall
    exact reduceObserved_all_eq hX hall
  · intro X Y hX hY hne
    exact reduceObserved_mixed hX hY hne
  · intro X hX hall
    exact reduceObserved_all_eq hX hall
  · intro X Y hX hY hne
    exact reduceObserved_mixed hX hY hne

/-- Witness for C2 on a two-controller snapshot with differing bus
sub-types at scan depth 2. -/
theorem c2_reduction_rule_witness :
    classify [ctrlA, ctrlB] 2 = Except.ok (classifyAux [ctrlA, ctrlB] ((2 : Int)).toNat) ∧
    (∀ X ∈ obsTypes [ctrlA, ctrlB] ((2 : Int)).toNat,
      (∀ y ∈ obsTypes [ctrlA, ctrlB] ((2 : Int)).toNat, y = X) →
        (classifyAux [ctrlA, ctrlB] ((2 : Int)).toNat).busType = X) ∧
    (∀ X Y, X ∈ obsTypes [ctrlA, ctrlB] ((2 : Int)).toNat →
      Y ∈ obsTypes [ctrlA, ctrlB] ((2 : Int)).toNat → X ≠ Y →
        (classifyAux [ctrlA, ctrlB] ((2 : Int)).toNat).busType = "mixed") ∧
    (∀ X ∈ obsSharing [ctrlA, ctrlB] ((2 : Int)).toNat,
      (∀ y ∈ obsSharing [ctrlA, ctrlB] ((2 : Int)).toNat, y = X) →
        (classifyAux [ctrlA, ctrlB] ((2 : Int)).toNat).busSharing = X) ∧
    (∀ X Y, X ∈ obsSharing [ctrlA, ctrlB] ((2 : Int)).toNat →
      Y ∈ obsSharing [ctrlA, ctrlB] ((2 : Int)).toNat → X ≠ Y →
        (classifyAux [ctrlA, ctrlB] ((2 : Int)).toNat).busSharing = "mixed") :=
  c2_reduction_rule [ctrlA, ctrlB] 2 (by decide)

/-- C8: `classify` fails (with `MalformedInventory`) exactly when the
scan depth is negative; for every snapshot and every non-negative scan
depth it succeeds with a `BusClassification` value. -/
theorem c8_classify_error_iff_negative (devices : List Device) (n : Int) :
    ((∃ e, classify devices n = Except.error e) ↔ n < 0) ∧
    (0 ≤ n → classify devices n = Except.ok (classifyAux devices n.toNat)) := by
  constructor
  · constructor
    · rintro ⟨e, he⟩
      by_contra hcon
      unfold classify at he
      rw [if_neg hcon] at he
      cases he
    · intro hneg
      refine ⟨ClassifyError.malformedInventory, ?_⟩
      unfold classify
      rw [if_pos hneg]
  · intro hn
    unfold classify
    rw [if_neg (by omega)]

/-- Witness for C8 at scan depth 1. -/
theorem c8_classify_error_iff_negative_witness :
    classify [ctrlA] 1 = Except.ok (classifyAux [ctrlA] ((1 : Int)).toNat) :=
  (c8_classify_error_iff_negative [ctrlA] 1).2 (by decide)

/-- C5: a disk device within scan depth whose recorded capacity is
zero makes `readDisks` fail with the `MalformedDevice` error; no disk
sequence is returned. -/
theorem c5_zero_capacity_malformed (devices : List Device) (n : Nat) (dv : Device)
    (hmem : dv ∈ diskDeviceSeq devices n) (hcap : dv.capacityInUnits = 0) :
    ∃ k, readDisks devices n = Except.error (DiskError.malformedDevice k) := by
  cases hf : (diskDeviceSeq devices n).find? (fun d => d.capacityInUnits == 0) with
  | none =>
    exfalso
    have := List.find?_eq_none.mp hf dv hmem
    simp [hcap] at this
  | some d =>
    refine ⟨d.key, ?_⟩
    unfold readDisks
    rw [hf]

/-- Witness for C5: a zero-capacity disk on the first controller. -/
theorem c5_zero_capacity_malformed_witness :
    ∃ k, readDisks [ctrlA, diskA, diskBad] 1 =
      Except.error (DiskError.malformedDevice k) :=
  c5_zero_capacity_malformed [ctrlA, diskA, diskBad] 1 diskBad (by decide) rfl

/-- C4: when a (k+1)-th controller exists and the read at scan depth
k+1 succeeds, the read at scan depth k succeeds and returns a prefix of
it: raising the scan depth only appends disks. -/
theorem c4_scan_depth_prefix (devices : List Device) (k : Nat)
    (_hex : k + 1 ≤ (scsiControllers devices).length)
    (l' : List DiskRecord) (h : readDisks devices (k + 1) = Except.ok l') :
    ∃ l, readDisks devices k = Except.ok l ∧ l <+: l' := by
  have hpre : diskDeviceSeq devices k <+: diskDeviceSeq devices (k + 1) :=
    diskDeviceSeq_prefix devices k
  cases hf : (diskDeviceSeq devices (k + 1)).find? (fun d => d.capacityInUnits == 0) with
  | some d =>
    exfalso
    unfold readDisks at h
    rw [hf] at h
    simp at h
  | none =>
    have hnone : (diskDeviceSeq devices k).find? (fun d => d.capacityInUnits == 0) = none := by
      rw [List.find?_eq_none] at hf ⊢
      intro x hx
      exact hf x (hpre.sublist.subset hx)
    have h2 : (Except.ok ((diskDeviceSeq devices (k + 1)).map
        (fun d => ({ size := d.capacityInUnits
                     eagerlyScrub := d.eagerlyScrub
                     thinProvisioned := d.thinProvisioned } : DiskRecord))) :
          Except DiskError (List DiskRecord)) =
        Except.ok l' := by
      rw [← h]
      unfold readDisks
      rw [hf]
    injection h2 with h3
    refine ⟨(diskDeviceSeq devices k).map
      (fun d => ({ size := d.capacityInUnits
                   eagerlyScrub := d.eagerlyScrub
                   thinProvisioned := d.thinProvisioned } : DiskRecord)), ?_, ?_⟩
    · unfold readDisks
      rw [hnone]
    · rw [← h3]
      exact hpre.map _

/-- Witness for C4: two controllers with one disk each, raising scan
depth 1 to 2. -/
theorem c4_scan_depth_prefix_witness :
    ∃ l, readDisks [ctrlA, ctrlB, diskA, diskB] 1 = Except.ok l ∧
      l <+: [({ size := 40, eagerlyScrub := false, thinProvisioned := true } : DiskRecord),
             { size := 20, eagerlyScrub := true, thinProvisioned := false }] :=
  c4_scan_depth_prefix [ctrlA, ctrlB, diskA, diskB] 1 (by decide) _ rfl

/-- C6: an adapter device with an unrecognized implementation class
never fails the enumeration: its record appears in the output with
adapter type "unknown", and every other adapter's record still appears
in the output unchanged. -/
theorem c6_unknown_adapter_degrades (devices : List Device) (a : Device)
    (ha : a ∈ devices) (hk : a.kind = DeviceClass.networkAdapter)
    (hu : knownAdapterClasses.contains a.adapterClass = false) :
    adapterRecord a ∈ readNetworkAdapters devices ∧
    (adapterRecord a).adapterType = "unknown" ∧
    ∀ b ∈ devices, b.kind = DeviceClass.networkAdapter →
      adapterRecord b ∈ readNetworkAdapters devices := by
  refine ⟨adapterRecord_mem ha hk, ?_, fun b hb hkb => adapterRecord_mem hb hkb⟩
  show normalizeAdapterType a.adapterClass = "unknown"
  unfold normalizeAdapterType
  rw [hu]
  rfl

/-- Witness for C6 on a snapshot holding a recognized and an
unrecognized adapter. -/
theorem c6_unknown_adapter_degrades_witness :
    adapterRecord nicZ ∈ readNetworkAdapters [nicX, nicZ] ∧
    (adapterRecord nicZ).adapterType = "unknown" ∧
    ∀ b ∈ [nicX, nicZ], b.kind = DeviceClass.networkAdapter →
      adapterRecord b ∈ readNetworkAdapters [nicX, nicZ] :=
  c6_unknown_adapter_degrades [nicX, nicZ] nicZ (by decide) rfl (by decide)

/-- C9: the types-only view equals the element-wise projection of the
full adapter records onto the adapter type field, in the same order. -/
theorem c9_types_view_is_projection (devices : List Device) :
    readNetworkAdapterTypes devices =
      (readNetworkAdapters devices).map (fun r => r.adapterType) := by
  unfold readNetworkAdapterTypes readNetworkAdapters
  rw [List.map_map]
  rfl

/-- C7: the adapter outputs of two successful orchestrator reads of
the same snapshot agree for every pair of scan-depth values — scan
depth never bounds network adapter enumeration — and every adapter
device of the snapshot appears in the output. -/
theorem c7_adapters_ignore_scan_depth (devices : List Device) (n m : Nat)
    (set set' : String → Option String) (r r' : ReadResult)
    (h : dataSourceVSphereVirtualMachineRead devices n set = Except.ok r)
    (h' : dataSourceVSphereVirtualMachineRead devices m set' = Except.ok r') :
    r.networkInterfaces = r'.networkInterfaces ∧
    r.networkInterfaceTypes = r'.networkInterfaceTypes ∧
    ∀ a ∈ devices, a.kind = DeviceClass.networkAdapter →
      adapterRecord a ∈ r.networkInterfaces := by
  have hfix : ∀ (j : Nat) (st : String → Option String) (u : ReadResult),
      dataSourceVSphereVirtualMachineRead devices j st = Except.ok u →
      u.networkInterfaces = readNetworkAdapters devices ∧
      u.networkInterfaceTypes = readNetworkAdapterTypes devices := by
    intro j st u hu
    cases hd : readDisks devices j with
    | error e =>
      rw [dataSourceRead_error devices j e hd st] at hu
      cases hu
    | ok ds =>
      rw [dataSourceRead_ok devices j ds hd st] at hu
      injection hu with hu2
      rw [← hu2]
      exact ⟨rfl, rfl⟩
  have h1 := hfix n set r h
  have h2 := hfix m set' r' h'
  refine ⟨h1.1.trans h2.1.symm, h1.2.trans h2.2.symm, ?_⟩
  intro a ha hk
  rw [h1.1]
  exact adapterRecord_mem ha hk

/-- Witness for C7: the same two-adapter snapshot read at scan depths
0 and 3. -/
theorem c7_adapters_ignore_scan_depth_witness :
    sampleReadResult.networkInterfaces = sampleReadResult.networkInterfaces ∧
    sampleReadResult.networkInterfaceTypes = sampleReadResult.networkInterfaceTypes ∧
    ∀ a ∈ [nicX, nicY], a.kind = DeviceClass.networkAdapter →
      adapterRecord a ∈ sampleReadResult.networkInterfaces :=
  c7_adapters_ignore_scan_depth [nicX, nicY] 0 3 (fun _ => none) (fun _ => none)
    sampleReadResult sampleReadResult rfl rfl

/-- C10: once the disk and network-interface reads have succeeded, the
three "error setting ..." branches of the orchestrator are unreachable:
the `err` variable they test is necessarily nil there and the return
value of each `d.Set` call is discarded, so the read succeeds whatever
`d.Set` does. -/
theorem c10_set_error_branches_unreachable (devices : List Device) (n : Nat)
    (ds : List DiskRecord) (h : readDisks devices n = Except.ok ds)
    (set : String → Option String) :
    dataSourceVSphereVirtualMachineRead devices n set =
      Except.ok { scsiType := (classifyAux devices n).busType
                  scsiBusSharing := (classifyAux devices n).busSharing
                  disks := ds
                  networkInterfaceTypes := readNetworkAdapterTypes devices
                  networkInterfaces := readNetworkAdapters devices } :=
  dataSourceRead_ok devices n ds h set

/-- Witness for C10: a read in which every `d.Set` call fails still
succeeds. -/
theorem c10_set_error_branches_unreachable_witness :
    dataSourceVSphereVirtualMachineRead [ctrlA, diskA] 1 (fun _ => some "boom") =
      Except.ok { scsiType := (classifyAux [ctrlA, diskA] 1).busType
                  scsiBusSharing := (classifyAux [ctrlA, diskA] 1).busSharing
                  disks := [{ size := 40, eagerlyScrub := false, thinProvisioned := true }]
                  networkInterfaceTypes := readNetworkAdapterTypes [ctrlA, diskA]
                  networkInterfaces := readNetworkAdapters [ctrlA, diskA] } :=
  c10_set_error_branches_unreachable [ctrlA, diskA] 1
    [{ size := 40, eagerlyScrub := false, thinProvisioned := true }] rfl
    (fun _ => some "boom")

/-- C3 fails as stated: classification is not invariant under
permutation of the input snapshot, because controller bus numbers are
assigned from declaration order.  Swapping two controllers of
different bus sub-types at scan depth 1 changes the classification. -/
theorem c3_counterexample_perm_changes_classification :
    ValidSnapshot [ctrlA, ctrlB, diskA, diskB] ∧
    List.Perm [ctrlB, ctrlA, diskA, diskB] [ctrlA, ctrlB, diskA, diskB] ∧
    classify [ctrlB, ctrlA, diskA, diskB] 1 =
      Except.ok { busType := "buslogic", busSharing := "noSharing" } ∧
    classify [ctrlA, ctrlB, diskA, diskB] 1 =
      Except.ok { busType := "lsilogic", busSharing := "noSharing" } ∧
    readDisks [ctrlB, ctrlA, diskA, diskB] 1 =
      Except.ok [{ size := 20, eagerlyScrub := true, thinProvisioned := false }] ∧
    readDisks [ctrlA, ctrlB, diskA, diskB] 1 =
      Except.ok [{ size := 40, eagerlyScrub := false, thinProvisioned := true }] ∧
    ("buslogic" : String) ≠ "lsilogic" ∧
    ([{ size := 20, eagerlyScrub := true, thinProvisioned := false }] : List DiskRecord) ≠
      [{ size := 40, eagerlyScrub := false, thinProvisioned := true }] :=
  ⟨by decide, List.Perm.swap ctrlA ctrlB [diskA, diskB], rfl, rfl, rfl, rfl,
    by decide, by decide⟩

/-- C3 (amended): for every valid snapshot the disk output keys are
strictly ascending in the lexicographic (controller bus number, unit
number) order and the adapter output is strictly ascending by unit
number; adapter enumeration is invariant under permutation of the
snapshot; classification and disk enumeration are not, since bus
numbers follow declaration order. -/
theorem c3_sorted_outputs_and_stable_adapters
    (devices devices' : List Device) (n : Nat)
    (hv : ValidSnapshot devices) (hp : List.Perm devices devices') :
    List.Pairwise lexLT (diskKeySeq devices n) ∧
    List.Pairwise unitLT (adapterDevices devices) ∧
    readNetworkAdapters devices' = readNetworkAdapters devices ∧
    readNetworkAdapterTypes devices' = readNetworkAdapterTypes devices := by
  have hadapters : adapterDevices devices = adapterDevices devices' := by
    have hs1 : List.Pairwise unitLT (adapterDevices devices) :=
      pairwise_unitLT_insertionSort _ hv.2.2
    have hnd2 : ((devices'.filter (fun d => d.kind == DeviceClass.networkAdapter)).map
        (fun d => d.unitNumber)).Nodup := by
      have hpf := hp.filter (fun d => d.kind == DeviceClass.networkAdapter)
      exact ((hpf.map (fun d => d.unitNumber)).nodup_iff).mp hv.2.2
    have hs2 : List.Pairwise unitLT (adapterDevices devices') :=
      pairwise_unitLT_insertionSort _ hnd2
    have hperm12 : List.Perm (adapterDevices devices) (adapterDevices devices') := by
      unfold adapterDevices
      exact (List.perm_insertionSort _ _).trans
        ((hp.filter _).trans (List.perm_insertionSort _ _).symm)
    exact List.eq_of_perm_of_sorted hperm12 hs1 hs2
  refine ⟨?_, pairwise_unitLT_insertionSort _ hv.2.2, ?_, ?_⟩
  · unfold diskKeySeq
    rw [List.pairwise_map]
    apply diskScan_pairwise
    intro c hc
    have hc1 : c ∈ scsiControllers devices := List.mem_of_mem_take hc
    have hc2 : c ∈ devices := (List.mem_filter.mp hc1).1
    exact hv.2.1 c hc2
  · unfold readNetworkAdapters
    rw [hadapters]
  · unfold readNetworkAdapterTypes
    rw [hadapters]

/-- Witness for the amended C3: a valid four-device snapshot and a
permutation of it, at scan depth 1. -/
theorem c3_sorted_outputs_and_stable_adapters_witness :
    List.Pairwise lexLT (diskKeySeq [ctrlA, diskA, nicX, nicY] 1) ∧
    List.Pairwise unitLT (adapterDevices [ctrlA, diskA, nicX, nicY]) ∧
    readNetworkAdapters [diskA, ctrlA, nicY, nicX] =
      readNetworkAdapters [ctrlA, diskA, nicX, nicY] ∧
    readNetworkAdapterTypes [diskA, ctrlA, nicY, nicX] =
      readNetworkAdapterTypes [ctrlA, diskA, nicX, nicY] :=
  c3_sorted_outputs_and_stable_adapters [ctrlA, diskA, nicX, nicY]
    [diskA, ctrlA, nicY, nicX] 1 (by decide) (by decide)

end VSphere
